/-
Verification of the forecast operator base model
(src/ads/opctl/operator/lowcode/forecast/model/base_model.py).

The development shallowly embeds the orchestration logic of
ForecastOperatorBaseModel: the per-series test-metrics loop
(_test_evaluate_metrics), the report-section assembly (generate_report),
artifact persistence (_save_report) and the explanation loop
(explain_model / local_explainer).  Pandas cells are `Option ℚ` with
`none` playing NaN; tables are association lists; a Python exception is
the error of an `Except`.  External collaborators that are not part of
the shown sources (sklearn metric kernels, the SHAP explainer, pandas
file readers) are modelled from the specification where the loop
structure needs them, and are named as such in their doc comments.
-/
import Mathlib

namespace ForecastOp

/-- Identifier of one time series in a multi-series run (SeriesId). -/
abbrev SeriesId := String

/-- A pandas scalar cell: `none` models NaN / a missing value. -/
abbrev V := Option ℚ

/-- A named row or column of scalar cells, keyed by metric or column name. -/
abbrev Row := List (String × V)

/-- Association-list lookup, the dictionary / DataFrame column access of the
source.  `none` models a Python KeyError site. -/
def alookup {β : Type} : List (String × β) → String → Option β
  | [], _ => none
  | (k, v) :: rest, s => if k = s then some v else alookup rest s

/-- The keys of an association list. -/
def assocKeys {α β : Type} (l : List (α × β)) : List α := l.map Prod.fst

/-- Python negative slicing `xs[-n:]`: the last `n` elements; as in Python,
`n = 0` yields the whole list. -/
def lastN {α : Type} (n : ℕ) (l : List α) : List α :=
  if n = 0 then l else l.drop (l.length - n)

/-- numpy boolean-mask indexing `xs[mask]`. -/
def maskFilter {α : Type} (l : List α) (mask : List Bool) : List α :=
  ((l.zip mask).filter (fun p => p.2)).map Prod.fst

/-- np.mean over rationals (0 on an empty list). -/
def meanQ (xs : List ℚ) : ℚ := if xs.length = 0 then 0 else xs.sum / xs.length

/-- np.median over rationals: middle element of the sorted list, or the
average of the two middle elements (0 on an empty list). -/
def medianQ (xs : List ℚ) : ℚ :=
  let s := xs.insertionSort (· ≤ ·)
  if s.length = 0 then 0
  else if s.length % 2 = 1 then s.getD (s.length / 2) 0
  else (s.getD (s.length / 2 - 1) 0 + s.getD (s.length / 2) 0) / 2

/-- The Python exceptions the embedded fragments can raise. -/
inductive PyErr
  | unboundLocalError
  | fileNotFoundError
  | keyError
  | valueError
deriving DecidableEq

/-- A Python for-loop whose body may raise: the exception aborts the loop and
propagates (there is no try/except around the bodies modelled with this). -/
def exceptFoldl {σ α ε : Type} (f : σ → α → Except ε σ) : σ → List α → Except ε σ
  | st, [] => Except.ok st
  | st, a :: l =>
    match f st a with
    | Except.error e => Except.error e
    | Except.ok st1 => exceptFoldl f st1 l

/-- Modelled from the spec: the valid (true, predicted) pairs of two aligned
value sequences, dropping positions where either side is NaN. -/
def validPairs (yTrue yPred : List V) : List (ℚ × ℚ) :=
  (yTrue.zip yPred).filterMap (fun p =>
    match p with
    | (some a, some f) => some (a, f)
    | _ => none)

/-- Modelled from the spec: symmetric mean absolute percentage error. -/
def smape (pairs : List (ℚ × ℚ)) : ℚ :=
  meanQ (pairs.map (fun p => 100 * (2 * |p.2 - p.1|) / (|p.1| + |p.2|)))

/-- Modelled from the spec: mean absolute percentage error. -/
def mape (pairs : List (ℚ × ℚ)) : ℚ :=
  meanQ (pairs.map (fun p => 100 * |p.1 - p.2| / |p.1|))

/-- Modelled from the spec: the mean squared error.  The source reports its
square root (RMSE); ℚ has no square root and no claim depends on the numeric
value of this metric, only on the presence and position of its row. -/
def mseQ (pairs : List (ℚ × ℚ)) : ℚ :=
  meanQ (pairs.map (fun p => (p.1 - p.2) ^ 2))

/-- Modelled from the spec: the R² determination coefficient. -/
def r2Q (pairs : List (ℚ × ℚ)) : ℚ :=
  1 - (pairs.map (fun p => (p.1 - p.2) ^ 2)).sum /
    (pairs.map (fun p => (p.1 - meanQ (pairs.map Prod.fst)) ^ 2)).sum

/-- Modelled from the spec: population variance. -/
def varQ (xs : List ℚ) : ℚ := meanQ (xs.map (fun x => (x - meanQ xs) ^ 2))

/-- Modelled from the spec: the explained-variance score. -/
def explainedVarQ (pairs : List (ℚ × ℚ)) : ℚ :=
  1 - varQ (pairs.map (fun p => p.1 - p.2)) / varQ (pairs.map Prod.fst)

/-- Modelled from the spec: `_build_metrics_df` (forecast utils, not among the
shown sources) builds the one-column metrics frame of a series, holding
sMAPE, MAPE, RMSE, R² and explained variance of the valid pairs. -/
def buildMetricsDf (yTrue yPred : List V) : Row :=
  let ps := validPairs yTrue yPred
  [("sMAPE", some (smape ps)),
   ("MAPE", some (mape ps)),
   ("RMSE", some (mseQ ps)),
   ("r2", some (r2Q ps)),
   ("Explained Variance", some (explainedVarQ ps))]

/-- Modelled from the spec: TestData maps SeriesId to ground-truth values;
`get_data_for_series` on a missing series raises KeyError in the source. -/
abbrev TestData := List (SeriesId × List V)

/-- ForecastOutput: SeriesId to the forecast-value sequence. -/
abbrev ForecastOutput := List (SeriesId × List V)

/-- `forecast_output.list_series_ids()`. -/
def listSeriesIds (fo : ForecastOutput) : List SeriesId := assocKeys fo

/-- `forecast_output.get_forecast(s_id)["forecast_value"].values`; the ids fed
to it come from `list_series_ids`, so the lookup always succeeds there. -/
def getForecast (fo : ForecastOutput) (s : SeriesId) : List V :=
  (alookup fo s).getD []

/-- The Python locals that survive an iteration of the per-series loop of
`_test_evaluate_metrics`: the accumulated `total_metrics` columns and the
`y_true` local, which the source's caught KeyError leaves holding the
previous iteration's value (`none` = not yet bound). -/
structure EvalLoopState where
  total : List (SeriesId × Row)
  yTrue : Option (List V)
deriving DecidableEq

/-- One iteration of the per-series loop of `_test_evaluate_metrics`
(base_model.py lines 315-346), including its two quirks:
the KeyError handler only logs, so a series missing from the test data
falls through with `y_true` unbound (UnboundLocalError on np.isnan) or
stale from the previous iteration; and the inner NaN branch tests
`drop_na_mask.any()` — true when at least one pair is valid — and then
logs "No values" and `continue`s, while the all-invalid case falls to the
masking lines and builds metrics over empty arrays. -/
def testEvalStep (td : TestData) (fo : ForecastOutput) (horizon : ℕ)
    (st : EvalLoopState) (s : SeriesId) : Except PyErr EvalLoopState :=
  -- lines 316-323: try: y_true = ...[-horizon:] except KeyError: logger.warn
  let yTrueNew : Option (List V) :=
    match alookup td s with
    | some vals => some (lastN horizon vals)
    | none => st.yTrue
  -- lines 324-326: y_pred = ...[-horizon:]
  let yPred := lastN horizon (getForecast fo s)
  match yTrueNew with
  | none => Except.error PyErr.unboundLocalError  -- np.isnan on an unbound local
  | some yt =>
    -- line 328: drop_na_mask = ~np.isnan(y_true) & ~np.isnan(y_pred)
    let mask := (yt.zip yPred).map (fun p => p.1.isSome && p.2.isSome)
    if mask.all (fun b => b) then
      -- no missing value: fall through to _build_metrics_df (lines 341-346)
      Except.ok ⟨st.total ++ [(s, buildMetricsDf yt yPred)], some yt⟩
    else if mask.any (fun b => b) then
      -- lines 330-334: at least one valid pair → logs and `continue`s
      Except.ok ⟨st.total, some yt⟩
    else
      -- lines 335-346: every pair invalid → mask (to empty) and build metrics
      let ytF := maskFilter yt mask
      let ypF := maskFilter yPred mask
      Except.ok ⟨st.total ++ [(s, buildMetricsDf ytF ypF)], some ytF⟩

/-- Modelled from the spec: SUMMARY_METRICS_HORIZON_LIMIT lives in const.py,
which is not among the shown sources; the docstring inside
`_test_evaluate_metrics` (lines 388-389) fixes it at 10. -/
def SUMMARY_METRICS_HORIZON_LIMIT : ℕ := 10

/-- `total_metrics.loc[name]`: one metric's value in every series column. -/
def metricAcross (total : List (SeriesId × Row)) (name : String) : List ℚ :=
  total.map (fun c => ((alookup c.2 name).getD none).getD 0)

/-- The single-row "All Targets" aggregate of `summary_metrics`
(lines 351-386): mean and median of each metric across the series columns,
plus the elapsed build time. -/
def aggregateRow (total : List (SeriesId × Row)) (elapsed : ℚ) : Row :=
  [("Mean sMAPE", some (meanQ (metricAcross total "sMAPE"))),
   ("Median sMAPE", some (medianQ (metricAcross total "sMAPE"))),
   ("Mean MAPE", some (meanQ (metricAcross total "MAPE"))),
   ("Median MAPE", some (medianQ (metricAcross total "MAPE"))),
   ("Mean RMSE", some (meanQ (metricAcross total "RMSE"))),
   ("Median RMSE", some (medianQ (metricAcross total "RMSE"))),
   ("Mean r2", some (meanQ (metricAcross total "r2"))),
   ("Median r2", some (medianQ (metricAcross total "r2"))),
   ("Mean Explained Variance",
     some (meanQ (metricAcross total "Explained Variance"))),
   ("Median Explained Variance",
     some (medianQ (metricAcross total "Explained Variance"))),
   ("Elapsed Time", some elapsed)]

/-- The valid (true, predicted) pairs across all series at one horizon
offset, from the aligned last-H windows. -/
def pairsAtOffset (td : TestData) (fo : ForecastOutput) (horizon : ℕ)
    (i : ℕ) : List (ℚ × ℚ) :=
  (listSeriesIds fo).filterMap (fun s =>
    match alookup td s with
    | none => none
    | some vals =>
      match (lastN horizon vals).getD i none,
            (lastN horizon (getForecast fo s)).getD i none with
      | some a, some f => some (a, f)
      | _, _ => none)

/-- Modelled from the spec: one row of the per-horizon-step breakdown —
mean and median across series of the single-point sMAPE, MAPE and wMAPE at
one horizon offset. -/
def horizonRow (td : TestData) (fo : ForecastOutput) (horizon i : ℕ) : Row :=
  let ps := pairsAtOffset td fo horizon i
  let sm := ps.map (fun p => 100 * (2 * |p.2 - p.1|) / (|p.1| + |p.2|))
  let mp := ps.map (fun p => 100 * |p.1 - p.2| / |p.1|)
  let wm := ps.map (fun p => |p.1 - p.2| / |p.1|)
  [("Mean sMAPE", some (meanQ sm)), ("Median sMAPE", some (medianQ sm)),
   ("Mean MAPE", some (meanQ mp)), ("Median MAPE", some (medianQ mp)),
   ("Mean wMAPE", some (meanQ wm)), ("Median wMAPE", some (medianQ wm))]

/-- Modelled from the spec: `_build_metrics_per_horizon` (forecast utils, not
among the shown sources) computes the metrics independently at each of the H
horizon offsets, one row per offset, labelled by its 1-based position. -/
def buildMetricsPerHorizon (td : TestData) (fo : ForecastOutput)
    (horizon : ℕ) : List (String × Row) :=
  (List.range horizon).map (fun i => (toString (i + 1), horizonRow td fo horizon i))

/-- The fixed canonical column order `new_column_order` (lines 398-412). -/
def newColumnOrder : List String :=
  ["Mean sMAPE", "Median sMAPE", "Mean MAPE", "Median MAPE",
   "Mean wMAPE", "Median wMAPE", "Mean RMSE", "Median RMSE",
   "Mean r2", "Median r2", "Mean Explained Variance",
   "Median Explained Variance", "Elapsed Time"]

/-- `summary_metrics[new_column_order]` applied to one row: pandas column
selection keeps every listed column, filling NaN where a row lacks it. -/
def reorderRow (order : List String) (r : Row) : Row :=
  order.map (fun c => (c, (alookup r c).getD none))

/-- `summary_metrics[new_column_order]` over the whole frame. -/
def reorderColumns (order : List String) (rows : List (String × Row)) :
    List (String × Row) :=
  rows.map (fun p => (p.1, reorderRow order p.2))

/-- `_test_evaluate_metrics` (base_model.py lines 309-415): the per-series
loop, the empty-table early return, the "All Targets" aggregate and the
conditional per-horizon breakdown with column reordering.  Returns
(total_metrics, summary_metrics); the third value the source returns is the
loaded TestData, carrying no information beyond the input. -/
def testEvaluateMetrics (td : TestData) (fo : ForecastOutput) (horizon : ℕ)
    (elapsed : ℚ) :
    Except PyErr (List (SeriesId × Row) × List (String × Row)) :=
  match exceptFoldl (testEvalStep td fo horizon) ⟨[], none⟩ (listSeriesIds fo) with
  | Except.error e => Except.error e
  | Except.ok st =>
    if st.total.isEmpty then Except.ok (st.total, [])
    else
      let summary := [("All Targets", aggregateRow st.total elapsed)]
      if horizon ≤ SUMMARY_METRICS_HORIZON_LIMIT then
        let mph := buildMetricsPerHorizon td fo horizon
        if mph.isEmpty then Except.ok (st.total, summary)
        else Except.ok (st.total, reorderColumns newColumnOrder (summary ++ mph))
      else Except.ok (st.total, summary)

/-- One report section tag of `generate_report`.  The rendered content is
external (report_creator); here a section is identified by which artifact
backs it.  Model-specific sections supplied by the subclass are opaque
numbered blocks. -/
inductive Section
  | summaryBlock
  | backtestHeading
  | backtestTable
  | backtestSummaryText (best : String)
  | backtestPlot
  | forecastHeading
  | forecastPlot
  | modelSpecific (n : ℕ)
  | testMetricsHeading
  | testMetricsTable
  | summaryMetricsHeading
  | summaryMetricsTable
  | trainMetricsHeading
  | trainMetricsTable
  | yamlHeading
  | yamlAppendix
deriving DecidableEq

/-- `backtest_stats.mean().to_dict()` (line 255): per-column means, in
column order. -/
def columnMeans (stats : List (String × List ℚ)) : List (String × ℚ) :=
  stats.map (fun p => (p.1, meanQ p.2))

/-- `del average_dict['backtest']` (line 256): the columns other than the
backtest index column. -/
def nonBacktest (avgs : List (String × ℚ)) : List (String × ℚ) :=
  avgs.filter (fun p => p.1 ≠ "backtest")

/-- Python `min(d, key=d.get)`: the first key attaining the minimal value
(ties keep the earlier key). -/
def argminFirst : List (String × ℚ) → Option (String × ℚ)
  | [] => none
  | p :: rest =>
    match argminFirst rest with
    | none => some p
    | some q => if p.2 ≤ q.2 then some p else some q

/-- Lines 255-257: the best model of the backtest statistics table — the
column with the lowest mean, after deleting the 'backtest' index column.
`del` raises KeyError when no backtest column exists; `min` raises
ValueError when nothing remains. -/
def bestModel (stats : List (String × List ℚ)) : Except PyErr String :=
  if stats.all (fun p => p.1 ≠ "backtest") then Except.error PyErr.keyError
  else
    match argminFirst (nonBacktest (columnMeans stats)) with
    | none => Except.error PyErr.valueError
    | some q => Except.ok q.1

/-- `test_metrics_sections`, first half (lines 230-237): present iff
`test_eval_metrics is not None and not ...empty`. -/
def testMetricsSecs (tem : Option (List (SeriesId × Row))) : List Section :=
  match tem with
  | some t => if t.isEmpty then [] else [Section.testMetricsHeading, Section.testMetricsTable]
  | none => []

/-- `test_metrics_sections`, second half (lines 239-242): the summary table. -/
def summaryMetricsSecs (sm : Option (List (String × Row))) : List Section :=
  match sm with
  | some t => if t.isEmpty then [] else [Section.summaryMetricsHeading, Section.summaryMetricsTable]
  | none => []

/-- `train_metrics_sections` (lines 244-248). -/
def trainMetricsSecs (em : Option (List (SeriesId × Row))) : List Section :=
  match em with
  | some t => if t.isEmpty then [] else [Section.trainMetricsHeading, Section.trainMetricsTable]
  | none => []

/-- `backtest_sections` (lines 250-264): entered only in "auto-select" mode;
`pd.read_csv` on the stats file raises FileNotFoundError when the file does
not exist (`none` here), with no existence check or try/except around it. -/
def backtestSecsE (model : String) (bt : Option (List (String × List ℚ))) :
    Except PyErr (List Section) :=
  if model = "auto-select" then
    match bt with
    | none => Except.error PyErr.fileNotFoundError
    | some stats =>
      match bestModel stats with
      | Except.error e => Except.error e
      | Except.ok best =>
        Except.ok [Section.backtestHeading, Section.backtestTable,
                   Section.backtestSummaryText best, Section.backtestPlot]
  else Except.ok []

/-- `forecast_plots` (lines 267-287): present iff at least one series has
forecast output; both branches of the inner conditional emit the same two
blocks. -/
def forecastSecs (forecastSeriesIds : List SeriesId) : List Section :=
  if forecastSeriesIds.length > 0 then [Section.forecastHeading, Section.forecastPlot] else []

/-- The report-section sequence of `generate_report` (lines 133-299):
`[]` when no report was requested, otherwise the line-291 concatenation.
The source computes the metric sections before reading the backtest file;
since nothing is emitted before a raise, binding the backtest sections
first yields the same value. -/
def reportSections (genReport : Bool) (model : String)
    (bt : Option (List (String × List ℚ)))
    (tem : Option (List (SeriesId × Row)))
    (sm : Option (List (String × Row)))
    (em : Option (List (SeriesId × Row)))
    (forecastSeriesIds : List SeriesId)
    (otherSections : List ℕ) : Except PyErr (List Section) :=
  if genReport then
    match backtestSecsE model bt with
    | Except.error e => Except.error e
    | Except.ok bsecs =>
      Except.ok ([Section.summaryBlock] ++ bsecs ++ forecastSecs forecastSeriesIds
        ++ otherSections.map Section.modelSpecific
        ++ testMetricsSecs tem ++ summaryMetricsSecs sm ++ trainMetricsSecs em
        ++ [Section.yamlHeading, Section.yamlAppendix])
  else Except.ok []

/-- One artifact file `_save_report` can write. -/
inductive Artifact
  | reportHtml
  | forecastCsv
  | metricsCsv
  | testMetricsCsv
  | globalExplanationCsv
  | localExplanationCsv
  | modelParamsJson
  | modelPickle
  | errorsJson
deriving DecidableEq

/-- One observable act of `_save_report`: a file write or a logged warning. -/
inductive Event
  | write (a : Artifact)
  | warnTrainMetrics
  | warnTestMetrics
  | warnGlobalExplanation
  | warnLocalExplanation
deriving DecidableEq

/-- `_save_report` (lines 417-574) as the ordered list of artifact writes
and warnings it performs.  File contents, paths and storage options are
external I/O; `is not None` guards become Option matches.  The explanation
tables' AttributeError catch wraps calls that are external here, so it has
no reachable error to model. -/
def saveReport (genReport genMetrics genExplanations genModelParams genPickle : Bool)
    (testDataPresent : Bool)
    (metricsDf : Option (List (SeriesId × Row)))
    (testMetricsDf : Option (List (SeriesId × Row)))
    (globalExpl localExpl : Option Row)
    (errorsNonempty : Bool) : List Event :=
  -- lines 434-450: the rendered report, only if requested
  (if genReport then [Event.write Artifact.reportHtml] else [])
  -- lines 452-458: the forecast CSV, unconditionally
  ++ [Event.write Artifact.forecastCsv]
  -- lines 460-501: metrics and test-metrics CSVs
  ++ (if genMetrics then
        (match metricsDf with
         | some _ => [Event.write Artifact.metricsCsv]
         | none => [Event.warnTrainMetrics])
        ++ (if testDataPresent then
              match testMetricsDf with
              | some _ => [Event.write Artifact.testMetricsCsv]
              | none => [Event.warnTestMetrics]
            else [])
      else [])
  -- lines 502-538: explanation CSVs
  ++ (if genExplanations then
        (match globalExpl with
         | some _ => [Event.write Artifact.globalExplanationCsv]
         | none => [Event.warnGlobalExplanation])
        ++ (match localExpl with
            | some _ => [Event.write Artifact.localExplanationCsv]
            | none => [Event.warnLocalExplanation])
      else [])
  -- lines 540-549: model hyperparameters
  ++ (if genModelParams then [Event.write Artifact.modelParamsJson] else [])
  -- lines 551-553: pickled model state
  ++ (if genPickle then [Event.write Artifact.modelPickle] else [])
  -- lines 562-574: the errors dictionary, only when non-empty
  ++ (if errorsNonempty then [Event.write Artifact.errorsJson] else [])

/-- The explanation dictionaries `explain_model` and `local_explainer`
populate: SeriesId to per-feature importance, and SeriesId to the local
attribution rows. -/
structure ExplainState where
  globalExpl : List (SeriesId × List (String × ℚ))
  localExpl : List (SeriesId × List (List ℚ))
deriving DecidableEq

/-- Per-column mean of absolute values over attribution rows:
`np.average(np.absolute(vals), axis=0)`. -/
def absColumnMeans (vals : List (List ℚ)) : List ℚ :=
  (List.range (vals.headD []).length).map
    (fun j => meanQ (vals.map (fun r => |r.getD j 0|)))

/-- `dict(zip(data_trimmed.columns[1:], np.average(np.absolute(
kernel_explnr_vals[:, 1:]), axis=0)))` (lines 690-695): feature names after
the first column zipped with the per-feature mean absolute attribution. -/
def globalEntry (cols : List String) (vals : List (List ℚ)) : List (String × ℚ) :=
  (cols.drop 1).zip ((absColumnMeans vals).drop 1)

/-- One iteration of the per-series loop of `explain_model` (lines 655-699).
A series not in `self.models` is only logged (the else at 696-699).  For a
series with a model, the body runs with no try/except: the external SHAP
computations — `kernel_explnr.shap_values` on the trimmed data (`shapG`) and
the `local_explainer` call's `shap_values` on the horizon window (`shapL`) —
propagate any failure.  `local_explainer` stores its entry (line 732) before
the emptiness check on the global attribution values (line 685); only
non-empty values add a GlobalExplanation entry. -/
def explainStep (models : List SeriesId) (cols : SeriesId → List String)
    (shapG shapL : SeriesId → Except Unit (List (List ℚ)))
    (st : ExplainState) (s : SeriesId) : Except Unit ExplainState :=
  if s ∈ models then
    match shapG s with
    | Except.error e => Except.error e
    | Except.ok vals =>
      match shapL s with
      | Except.error e => Except.error e
      | Except.ok lvals =>
        let st1 : ExplainState := ⟨st.globalExpl, st.localExpl ++ [(s, lvals)]⟩
        if vals.length = 0 then Except.ok st1
        else Except.ok ⟨st1.globalExpl ++ [(s, globalEntry (cols s) vals)], st1.localExpl⟩
  else Except.ok st

/-- `explain_model` (lines 633-706) over the series of
`datasets.get_data_by_series`: the sequential per-series loop, starting from
empty explanation dictionaries. -/
def explainModel (series models : List SeriesId) (cols : SeriesId → List String)
    (shapG shapL : SeriesId → Except Unit (List (List ℚ))) :
    Except Unit ExplainState :=
  exceptFoldl (explainStep models cols shapG shapL) ⟨[], []⟩ series

/-- Feature columns of the concrete explanation runs. -/
def exCols : SeriesId → List String := fun _ => ["ds", "x1", "x2"]

/-- A SHAP computation that fails on series A and succeeds elsewhere. -/
def exShapFailA : SeriesId → Except Unit (List (List ℚ)) :=
  fun s => if s = "A" then Except.error () else Except.ok [[1, 2, 3]]

/-- A SHAP computation that succeeds with one attribution row. -/
def exShapOk : SeriesId → Except Unit (List (List ℚ)) :=
  fun _ => Except.ok [[1, 2, 3]]

/-- A SHAP computation that succeeds with an empty attribution result set. -/
def exShapEmpty : SeriesId → Except Unit (List (List ℚ)) :=
  fun _ => Except.ok []

/-- The backtest statistics table of the spec's concrete example:
a 'backtest' index column and columns modelA = [0.1, 0.3],
modelB = [0.05, 0.05]. -/
def exBacktestStats : List (String × List ℚ) :=
  [("backtest", [1, 2]), ("modelA", [1/10, 3/10]), ("modelB", [1/20, 1/20])]

/-- The value `_test_evaluate_metrics` returns on a one-series,
one-point run with a valid test pair (horizon 1, elapsed 0). -/
def exOnePointResult : (List (SeriesId × Row)) × (List (String × Row)) :=
  ((testEvaluateMetrics [("A", [some 1])] [("A", [some 1])] 1 0).toOption).getD ([], [])

/-- The summary row labels of a metrics result. -/
def summaryLabels (r : (List (SeriesId × Row)) × (List (String × Row))) :
    List String :=
  r.2.map Prod.fst

/-- The per-row column-name lists of a summary table. -/
def summaryRowColumns (rows : List (String × Row)) : List (List String) :=
  rows.map (fun p => assocKeys p.2)

/-- C1: the source, against its own comments and the spec, skips a series
whose last-H pairs mix valid and NaN entries: for series A with true values
[1, NaN] and predictions [1, 2] at horizon 2, `drop_na_mask.any()` is true,
the loop logs "No values in the test data" and `continue`s, so A gets no
metrics column and both returned tables are empty — instead of dropping the
NaN position and producing one column for A. -/
theorem testEvaluateMetrics_skips_mixed_nan_series :
    testEvaluateMetrics [("A", [some 1, none])] [("A", [some (1 : ℚ), some 2])] 2 0 =
      Except.ok ([], []) := by
  rfl

/-- C2: a series with forecast output but entirely missing from TestData is
not skipped: the caught KeyError only logs, `y_true` stays unbound, and
`np.isnan(y_true)` raises UnboundLocalError, aborting
`_test_evaluate_metrics` — instead of skipping the series and completing. -/
theorem testEvaluateMetrics_missing_series_raises :
    testEvaluateMetrics [] [("A", [some (1 : ℚ)])] 1 0 =
      Except.error PyErr.unboundLocalError := by
  rfl

/-- C9: whenever `_test_evaluate_metrics` returns, SummaryMetrics is empty
iff MetricsTable is empty: with no metrics columns both come back empty
without error, and with at least one column the summary holds at least the
single-row "All Targets" aggregate. -/
theorem testEvaluateMetrics_summary_empty_iff_total_empty
    (td : TestData) (fo : ForecastOutput) (h : ℕ) (e : ℚ)
    (res : (List (SeriesId × Row)) × (List (String × Row)))
    (hok : testEvaluateMetrics td fo h e = Except.ok res) :
    res.2 = [] ↔ res.1 = [] := by
  unfold testEvaluateMetrics at hok
  cases hfold : exceptFoldl (testEvalStep td fo h) ⟨[], none⟩ (listSeriesIds fo) with
  | error err => rw [hfold] at hok; exact Except.noConfusion hok
  | ok st =>
    rw [hfold] at hok
    dsimp only at hok
    by_cases hemp : st.total.isEmpty
    · rw [if_pos hemp] at hok
      injection hok with hres
      subst hres
      simp only [List.isEmpty_iff] at hemp
      simp [hemp]
    · rw [if_neg hemp] at hok
      simp only [List.isEmpty_iff] at hemp
      by_cases hlim : h ≤ SUMMARY_METRICS_HORIZON_LIMIT
      · rw [if_pos hlim] at hok
        by_cases hmph : (buildMetricsPerHorizon td fo h).isEmpty
        · rw [if_pos hmph] at hok
          injection hok with hres
          subst hres
          simp [hemp]
        · rw [if_neg hmph] at hok
          injection hok with hres
          subst hres
          simp [hemp, reorderColumns]
      · rw [if_neg hlim] at hok
        injection hok with hres
        subst hres
        simp [hemp]

/-- Witness for C9 at the empty run: no series yields both tables empty. -/
theorem testEvaluateMetrics_summary_empty_iff_total_empty_witness :
    (([], []) : (List (SeriesId × Row)) × (List (String × Row))).2 = [] ↔
      (([], []) : (List (SeriesId × Row)) × (List (String × Row))).1 = [] :=
  testEvaluateMetrics_summary_empty_iff_total_empty [] [] 1 0 ([], []) (by rfl)

lemma length_buildMetricsPerHorizon (td : TestData) (fo : ForecastOutput)
    (h : ℕ) : (buildMetricsPerHorizon td fo h).length = h := by
  simp [buildMetricsPerHorizon]

lemma labels_buildMetricsPerHorizon (td : TestData) (fo : ForecastOutput)
    (h : ℕ) : (buildMetricsPerHorizon td fo h).map Prod.fst =
      (List.range h).map (fun i => toString (i + 1)) := by
  simp [buildMetricsPerHorizon]

lemma assocKeys_reorderRow (o : List String) (r : Row) :
    assocKeys (reorderRow o r) = o := by
  simp [assocKeys, reorderRow, Function.comp_def]

lemma labels_reorderColumns (o : List String) (rows : List (String × Row)) :
    (reorderColumns o rows).map Prod.fst = rows.map Prod.fst := by
  simp [reorderColumns]

lemma summaryRowColumns_reorderColumns (o : List String)
    (rows : List (String × Row)) :
    summaryRowColumns (reorderColumns o rows) = List.replicate rows.length o := by
  simp [summaryRowColumns, reorderColumns, List.map_map, Function.comp_def,
    assocKeys_reorderRow, List.map_const']

/-- C4 (amended): in a non-empty result of `_test_evaluate_metrics` the
per-horizon-step breakdown is present iff the horizon is at or below
SUMMARY_METRICS_HORIZON_LIMIT; when present, the breakdown rows are
appended after the single-row "All Targets" aggregate (`pd.concat` stacks
the aggregate first) and every row is reordered to the canonical column
order; above the limit the summary is the lone aggregate row. -/
theorem testEvaluateMetrics_breakdown_iff_within_limit
    (td : TestData) (fo : ForecastOutput) (h : ℕ) (e : ℚ)
    (res : (List (SeriesId × Row)) × (List (String × Row)))
    (h1 : 1 ≤ h)
    (hok : testEvaluateMetrics td fo h e = Except.ok res)
    (hne : res.1 ≠ []) :
    (h ≤ SUMMARY_METRICS_HORIZON_LIMIT →
       summaryLabels res = "All Targets" :: (List.range h).map (fun i => toString (i + 1)) ∧
       summaryRowColumns res.2 = List.replicate (h + 1) newColumnOrder) ∧
    (SUMMARY_METRICS_HORIZON_LIMIT < h → summaryLabels res = ["All Targets"]) := by
  unfold testEvaluateMetrics at hok
  cases hfold : exceptFoldl (testEvalStep td fo h) ⟨[], none⟩ (listSeriesIds fo) with
  | error err => rw [hfold] at hok; exact Except.noConfusion hok
  | ok st =>
    rw [hfold] at hok
    dsimp only at hok
    by_cases hemp : st.total.isEmpty
    · rw [if_pos hemp] at hok
      injection hok with hres
      subst hres
      simp only [List.isEmpty_iff] at hemp
      exact absurd hemp hne
    · rw [if_neg hemp] at hok
      by_cases hlim : h ≤ SUMMARY_METRICS_HORIZON_LIMIT
      · rw [if_pos hlim] at hok
        by_cases hmph : (buildMetricsPerHorizon td fo h).isEmpty
        · exfalso
          rw [List.isEmpty_iff, ← List.length_eq_zero,
            length_buildMetricsPerHorizon] at hmph
          omega
        · rw [if_neg hmph] at hok
          injection hok with hres
          subst hres
          constructor
          · intro _
            constructor
            · show (reorderColumns newColumnOrder _).map Prod.fst = _
              rw [labels_reorderColumns]
              simp [labels_buildMetricsPerHorizon]
            · show summaryRowColumns (reorderColumns newColumnOrder _) = _
              rw [summaryRowColumns_reorderColumns]
              simp [length_buildMetricsPerHorizon, Nat.add_comm]
          · intro hgt
            omega
      · rw [if_neg hlim] at hok
        injection hok with hres
        subst hres
        exact ⟨fun hle => absurd hle hlim, fun _ => rfl⟩

/-- Witness for C4 at horizon 1 (within the limit): the one-point run's
summary is the aggregate row followed by the one breakdown row, all rows in
canonical column order. -/
theorem testEvaluateMetrics_breakdown_iff_within_limit_witness :
    summaryLabels exOnePointResult =
      "All Targets" :: (List.range 1).map (fun i => toString (i + 1)) ∧
    summaryRowColumns exOnePointResult.2 = List.replicate (1 + 1) newColumnOrder :=
  (testEvaluateMetrics_breakdown_iff_within_limit
    [("A", [some 1])] [("A", [some 1])] 1 0 exOnePointResult
    (by decide) (by rfl) (by decide)).1 (by decide)

/-- C4 counterexample: at horizon 1 the breakdown row comes after the
"All Targets" aggregate, not before it — the summary rows are
["All Targets", "1"], so the breakdown is appended, not prepended. -/
theorem testEvaluateMetrics_breakdown_not_prepended :
    (testEvaluateMetrics [("A", [some 1])] [("A", [some (1 : ℚ)])] 1 0).map summaryLabels =
      Except.ok ["All Targets", "1"] ∧
    (testEvaluateMetrics [("A", [some 1])] [("A", [some (1 : ℚ)])] 1 0).map summaryLabels ≠
      Except.ok ["1", "All Targets"] := by
  constructor
  · rfl
  · intro hc
    have h1 : (testEvaluateMetrics [("A", [some 1])] [("A", [some (1 : ℚ)])] 1 0).map
        summaryLabels = Except.ok ["All Targets", "1"] := rfl
    rw [h1] at hc
    simp at hc

lemma mem_testMetricsSecs (x : Section) (tem : Option (List (SeriesId × Row))) :
    x ∈ testMetricsSecs tem ↔
      ((x = Section.testMetricsHeading ∨ x = Section.testMetricsTable) ∧
        ∃ t, tem = some t ∧ t ≠ []) := by
  cases tem with
  | none => simp [testMetricsSecs]
  | some t =>
    simp only [testMetricsSecs]
    split
    case isTrue hemp =>
      simp only [List.isEmpty_iff] at hemp
      simp [hemp]
    case isFalse hemp =>
      simp only [List.isEmpty_iff] at hemp
      simp [hemp]

lemma mem_summaryMetricsSecs (x : Section) (sm : Option (List (String × Row))) :
    x ∈ summaryMetricsSecs sm ↔
      ((x = Section.summaryMetricsHeading ∨ x = Section.summaryMetricsTable) ∧
        ∃ t, sm = some t ∧ t ≠ []) := by
  cases sm with
  | none => simp [summaryMetricsSecs]
  | some t =>
    simp only [summaryMetricsSecs]
    split
    case isTrue hemp =>
      simp only [List.isEmpty_iff] at hemp
      simp [hemp]
    case isFalse hemp =>
      simp only [List.isEmpty_iff] at hemp
      simp [hemp]

lemma mem_trainMetricsSecs (x : Section) (em : Option (List (SeriesId × Row))) :
    x ∈ trainMetricsSecs em ↔
      ((x = Section.trainMetricsHeading ∨ x = Section.trainMetricsTable) ∧
        ∃ t, em = some t ∧ t ≠ []) := by
  cases em with
  | none => simp [trainMetricsSecs]
  | some t =>
    simp only [trainMetricsSecs]
    split
    case isTrue hemp =>
      simp only [List.isEmpty_iff] at hemp
      simp [hemp]
    case isFalse hemp =>
      simp only [List.isEmpty_iff] at hemp
      simp [hemp]

lemma mem_forecastSecs (x : Section) (fs : List SeriesId) :
    x ∈ forecastSecs fs ↔
      ((x = Section.forecastHeading ∨ x = Section.forecastPlot) ∧ fs ≠ []) := by
  simp only [forecastSecs]
  split
  case isTrue hpos =>
    have : fs ≠ [] := by
      intro hnil
      subst hnil
      simp at hpos
    simp [this]
  case isFalse hpos =>
    have : fs = [] := by
      cases fs with
      | nil => rfl
      | cons a l => simp at hpos
    simp [this]

lemma mem_backtestSecsE_ok {model : String} {bt : Option (List (String × List ℚ))}
    {l : List Section} (h : backtestSecsE model bt = Except.ok l)
    (x : Section) (hx : x ∈ l) :
    x = Section.backtestHeading ∨ x = Section.backtestTable ∨
      (∃ b, x = Section.backtestSummaryText b) ∨ x = Section.backtestPlot := by
  unfold backtestSecsE at h
  by_cases hm : model = "auto-select"
  · rw [if_pos hm] at h
    cases bt with
    | none => exact Except.noConfusion h
    | some stats =>
      dsimp only at h
      cases hbm : bestModel stats with
      | error e => rw [hbm] at h; exact Except.noConfusion h
      | ok best =>
        rw [hbm] at h
        injection h with hl
        subst hl
        simp only [List.mem_cons, List.not_mem_nil, or_false] at hx
        rcases hx with rfl | rfl | rfl | rfl
        · exact Or.inl rfl
        · exact Or.inr (Or.inl rfl)
        · exact Or.inr (Or.inr (Or.inl ⟨best, rfl⟩))
        · exact Or.inr (Or.inr (Or.inr rfl))
  · rw [if_neg hm] at h
    injection h with hl
    subst hl
    exact absurd hx (List.not_mem_nil x)

lemma backtestSecsE_not_auto {model : String}
    (bt : Option (List (String × List ℚ))) (hm : model ≠ "auto-select") :
    backtestSecsE model bt = Except.ok [] := by
  unfold backtestSecsE
  rw [if_neg hm]

lemma backtest_only_sections {model : String}
    {bt : Option (List (String × List ℚ))} {l : List Section}
    (h : backtestSecsE model bt = Except.ok l) :
    Section.testMetricsHeading ∉ l ∧ Section.testMetricsTable ∉ l ∧
    Section.summaryMetricsHeading ∉ l ∧ Section.summaryMetricsTable ∉ l ∧
    Section.trainMetricsHeading ∉ l ∧ Section.trainMetricsTable ∉ l ∧
    Section.forecastHeading ∉ l ∧ Section.forecastPlot ∉ l := by
  refine ⟨?_, ?_, ?_, ?_, ?_, ?_, ?_, ?_⟩ <;>
    · intro hx
      rcases mem_backtestSecsE_ok h _ hx with h2 | h2 | ⟨b, h2⟩ | h2 <;> simp at h2

/-- C7: an Except.ok report-section sequence never contains a section whose
backing artifact is absent or empty: with no (or an empty) test-metrics
table the "Test Data Evaluation Metrics" blocks are absent, and likewise
for the summary-metrics, training-metrics, forecast-plot and backtest
sections. -/
theorem reportSections_omits_absent_or_empty_artifacts
    (model : String) (bt : Option (List (String × List ℚ)))
    (tem em : Option (List (SeriesId × Row))) (sm : Option (List (String × Row)))
    (fs : List SeriesId) (other : List ℕ) (secs : List Section)
    (hok : reportSections true model bt tem sm em fs other = Except.ok secs) :
    ((tem = none ∨ tem = some []) →
       Section.testMetricsHeading ∉ secs ∧ Section.testMetricsTable ∉ secs) ∧
    ((sm = none ∨ sm = some []) →
       Section.summaryMetricsHeading ∉ secs ∧ Section.summaryMetricsTable ∉ secs) ∧
    ((em = none ∨ em = some []) →
       Section.trainMetricsHeading ∉ secs ∧ Section.trainMetricsTable ∉ secs) ∧
    (fs = [] → Section.forecastHeading ∉ secs ∧ Section.forecastPlot ∉ secs) ∧
    (bt = none → Section.backtestHeading ∉ secs ∧ Section.backtestTable ∉ secs) := by
  unfold reportSections at hok
  rw [if_pos rfl] at hok
  cases hbt : backtestSecsE model bt with
  | error e => rw [hbt] at hok; exact Except.noConfusion hok
  | ok bsecs =>
    rw [hbt] at hok
    injection hok with hsecs
    subst hsecs
    obtain ⟨nb1, nb2, nb3, nb4, nb5, nb6, nb7, nb8⟩ := backtest_only_sections hbt
    refine ⟨?_, ?_, ?_, ?_, ?_⟩
    · intro habs
      rcases habs with rfl | rfl <;>
        exact ⟨fun hx => by
            simp_all [mem_testMetricsSecs, mem_summaryMetricsSecs,
              mem_trainMetricsSecs, mem_forecastSecs],
          fun hx => by
            simp_all [mem_testMetricsSecs, mem_summaryMetricsSecs,
              mem_trainMetricsSecs, mem_forecastSecs]⟩
    · intro habs
      rcases habs with rfl | rfl <;>
        exact ⟨fun hx => by
            simp_all [mem_testMetricsSecs, mem_summaryMetricsSecs,
              mem_trainMetricsSecs, mem_forecastSecs],
          fun hx => by
            simp_all [mem_testMetricsSecs, mem_summaryMetricsSecs,
              mem_trainMetricsSecs, mem_forecastSecs]⟩
    · intro habs
      rcases habs with rfl | rfl <;>
        exact ⟨fun hx => by
            simp_all [mem_testMetricsSecs, mem_summaryMetricsSecs,
              mem_trainMetricsSecs, mem_forecastSecs],
          fun hx => by
            simp_all [mem_testMetricsSecs, mem_summaryMetricsSecs,
              mem_trainMetricsSecs, mem_forecastSecs]⟩
    · intro habs
      subst habs
      exact ⟨fun hx => by
          simp_all [mem_testMetricsSecs, mem_summaryMetricsSecs,
            mem_trainMetricsSecs, mem_forecastSecs],
        fun hx => by
          simp_all [mem_testMetricsSecs, mem_summaryMetricsSecs,
            mem_trainMetricsSecs, mem_forecastSecs]⟩
    · intro habs
      subst habs
      have hbs : bsecs = [] := by
        by_cases hm : model = "auto-select"
        · rw [hm] at hbt
          exact Except.noConfusion hbt
        · rw [backtestSecsE_not_auto none hm] at hbt
          injection hbt with h
          exact h.symm
      subst hbs
      exact ⟨fun hx => by
          simp_all [mem_testMetricsSecs, mem_summaryMetricsSecs,
            mem_trainMetricsSecs, mem_forecastSecs],
        fun hx => by
          simp_all [mem_testMetricsSecs, mem_summaryMetricsSecs,
            mem_trainMetricsSecs, mem_forecastSecs]⟩

/-- Witness for C7 on a run with every optional artifact absent: the
produced sequence is the bare header plus configuration echo, with no
metric, forecast or backtest section. -/
theorem reportSections_omits_absent_or_empty_artifacts_witness :
    (Section.testMetricsHeading ∉
        [Section.summaryBlock, Section.yamlHeading, Section.yamlAppendix] ∧
      Section.testMetricsTable ∉
        [Section.summaryBlock, Section.yamlHeading, Section.yamlAppendix]) ∧
    (Section.summaryMetricsHeading ∉
        [Section.summaryBlock, Section.yamlHeading, Section.yamlAppendix] ∧
      Section.summaryMetricsTable ∉
        [Section.summaryBlock, Section.yamlHeading, Section.yamlAppendix]) ∧
    (Section.trainMetricsHeading ∉
        [Section.summaryBlock, Section.yamlHeading, Section.yamlAppendix] ∧
      Section.trainMetricsTable ∉
        [Section.summaryBlock, Section.yamlHeading, Section.yamlAppendix]) ∧
    (Section.forecastHeading ∉
        [Section.summaryBlock, Section.yamlHeading, Section.yamlAppendix] ∧
      Section.forecastPlot ∉
        [Section.summaryBlock, Section.yamlHeading, Section.yamlAppendix]) ∧
    (Section.backtestHeading ∉
        [Section.summaryBlock, Section.yamlHeading, Section.yamlAppendix] ∧
      Section.backtestTable ∉
        [Section.summaryBlock, Section.yamlHeading, Section.yamlAppendix]) := by
  have h := reportSections_omits_absent_or_empty_artifacts "m" none none none none
    [] [] [Section.summaryBlock, Section.yamlHeading, Section.yamlAppendix] (by rfl)
  exact ⟨h.1 (Or.inl rfl), h.2.1 (Or.inl rfl), h.2.2.1 (Or.inl rfl),
    h.2.2.2.1 rfl, h.2.2.2.2 rfl⟩

/-- C5 (amended): over completed report assemblies, the backtest section is
present iff the model selection mode is "auto-select" and the backtest
statistics file exists; but when the mode is "auto-select" and the file
does not exist, `pd.read_csv` raises FileNotFoundError and report assembly
aborts instead of omitting the section. -/
theorem reportSections_backtest_requires_stats_file
    (model : String) (bt : Option (List (String × List ℚ)))
    (tem em : Option (List (SeriesId × Row))) (sm : Option (List (String × Row)))
    (fs : List SeriesId) (other : List ℕ) :
    (∀ secs, reportSections true model bt tem sm em fs other = Except.ok secs →
       (Section.backtestHeading ∈ secs ↔ model = "auto-select" ∧ bt.isSome)) ∧
    (model = "auto-select" → bt = none →
       reportSections true model bt tem sm em fs other =
         Except.error PyErr.fileNotFoundError) := by
  constructor
  · intro secs hok
    unfold reportSections at hok
    rw [if_pos rfl] at hok
    cases hbt : backtestSecsE model bt with
    | error e => rw [hbt] at hok; exact Except.noConfusion hok
    | ok bsecs =>
      rw [hbt] at hok
      injection hok with hsecs
      subst hsecs
      constructor
      · intro hmem
        have hmem' : Section.backtestHeading ∈ bsecs := by
          simpa [mem_testMetricsSecs, mem_summaryMetricsSecs,
            mem_trainMetricsSecs, mem_forecastSecs] using hmem
        by_cases hm : model = "auto-select"
        · refine ⟨hm, ?_⟩
          cases bt with
          | none => rw [hm] at hbt; exact Except.noConfusion hbt
          | some stats => rfl
        · rw [backtestSecsE_not_auto bt hm] at hbt
          injection hbt with hl
          rw [← hl] at hmem'
          exact absurd hmem' (List.not_mem_nil _)
      · rintro ⟨hm, hsome⟩
        subst hm
        obtain ⟨stats, rfl⟩ := Option.isSome_iff_exists.mp hsome
        unfold backtestSecsE at hbt
        rw [if_pos rfl] at hbt
        dsimp only at hbt
        cases hbm : bestModel stats with
        | error e => rw [hbm] at hbt; exact Except.noConfusion hbt
        | ok best =>
          rw [hbm] at hbt
          injection hbt with hl
          rw [← hl]
          simp
  · intro hm hbtn
    subst hm
    subst hbtn
    rfl

/-- Witness for C5: in "auto-select" mode with no backtest statistics file
the assembly aborts with FileNotFoundError. -/
theorem reportSections_backtest_requires_stats_file_witness :
    reportSections true "auto-select" none none none none [] [] =
      Except.error PyErr.fileNotFoundError :=
  (reportSections_backtest_requires_stats_file
    "auto-select" none none none none [] []).2 rfl rfl

/-- C5 counterexample: with model "auto-select", a missing backtest
statistics file and every other artifact available, `generate_report` does
not omit the backtest section and continue — it raises FileNotFoundError
and produces no section sequence at all. -/
theorem reportSections_missing_backtest_file_aborts :
    reportSections true "auto-select" none (some [("A", [("sMAPE", some 0)])])
      none none ["A"] [] = Except.error PyErr.fileNotFoundError := by
  rfl

lemma argminFirst_ne_none (a : String × ℚ) (l : List (String × ℚ)) :
    argminFirst (a :: l) ≠ none := by
  simp only [argminFirst]
  cases h2 : argminFirst l
  · simp
  · dsimp only
    split <;> simp

lemma argminFirst_spec (l : List (String × ℚ)) (q : String × ℚ)
    (h : argminFirst l = some q) : q ∈ l ∧ ∀ p ∈ l, q.2 ≤ p.2 := by
  induction l generalizing q with
  | nil => exact Option.noConfusion h
  | cons p rest ih =>
    simp only [argminFirst] at h
    cases hr : argminFirst rest with
    | none =>
      rw [hr] at h
      dsimp only at h
      injection h with heq
      subst heq
      cases rest with
      | nil => exact ⟨List.mem_singleton_self _, by simp⟩
      | cons r rs => exact absurd hr (argminFirst_ne_none r rs)
    | some qm =>
      rw [hr] at h
      dsimp only at h
      obtain ⟨hqm, hmin⟩ := ih qm hr
      by_cases hle : p.2 ≤ qm.2
      · rw [if_pos hle] at h
        injection h with heq
        subst heq
        refine ⟨List.mem_cons_self _ _, ?_⟩
        intro p' hp'
        rcases List.mem_cons.mp hp' with rfl | hp'
        · exact le_refl _
        · exact le_trans hle (hmin p' hp')
      · rw [if_neg hle] at h
        injection h with heq
        subst heq
        refine ⟨List.mem_cons_of_mem p hqm, ?_⟩
        intro p' hp'
        rcases List.mem_cons.mp hp' with rfl | hp'
        · exact le_of_lt (lt_of_not_le hle)
        · exact hmin p' hp'

/-- C8: when line 257 selects a best model, it is one of the columns of the
backtest statistics table other than the 'backtest' index column, and its
column mean is lowest among those columns. -/
theorem bestModel_picks_lowest_mean (stats : List (String × List ℚ)) (m : String)
    (h : bestModel stats = Except.ok m) :
    m ≠ "backtest" ∧
    ∃ v, (m, v) ∈ nonBacktest (columnMeans stats) ∧
      ∀ q ∈ nonBacktest (columnMeans stats), v ≤ q.2 := by
  unfold bestModel at h
  split at h
  case isTrue => exact Except.noConfusion h
  case isFalse =>
    cases ha : argminFirst (nonBacktest (columnMeans stats)) with
    | none => rw [ha] at h; exact Except.noConfusion h
    | some q =>
      rw [ha] at h
      injection h with hm
      subst hm
      obtain ⟨hq, hmin⟩ := argminFirst_spec _ q ha
      have hqne : q.1 ≠ "backtest" := by
        have hf := List.mem_filter.mp hq
        simpa using hf.2
      exact ⟨hqne, q.2, by simpa using hq, hmin⟩

/-- Witness for C8 at the spec's example table: with columns
modelA = [0.1, 0.3] and modelB = [0.05, 0.05] beside the 'backtest' index
column, modelB is selected and its mean is minimal. -/
theorem bestModel_picks_lowest_mean_witness :
    bestModel exBacktestStats = Except.ok "modelB" ∧
    ("modelB" ≠ "backtest" ∧
      ∃ v, ("modelB", v) ∈ nonBacktest (columnMeans exBacktestStats) ∧
        ∀ q ∈ nonBacktest (columnMeans exBacktestStats), v ≤ q.2) :=
  have hbm : bestModel exBacktestStats = Except.ok "modelB" := by
    norm_num [bestModel, exBacktestStats, nonBacktest, columnMeans, meanQ, argminFirst]
  ⟨hbm, bestModel_picks_lowest_mean exBacktestStats "modelB" hbm⟩

lemma mem_bool_ite_nil {α : Type} (x : α) (b : Bool) (L : List α) :
    (x ∈ if b then L else []) ↔ (b = true ∧ x ∈ L) := by
  cases b <;> simp

/-- C6 (amended): when metrics generation is requested and the training
metrics table was never computed — it is None — `_save_report` writes no
metrics CSV and logs a warning instead of raising, and the forecast result
CSV is still written.  (An empty-but-present table is not skipped: the
source checks only `is not None`.) -/
theorem saveReport_absent_metrics_warns_and_writes_forecast
    (genReport genMetrics genExplanations genModelParams genPickle : Bool)
    (testDataPresent : Bool)
    (testMetricsDf : Option (List (SeriesId × Row)))
    (globalExpl localExpl : Option Row) (errorsNonempty : Bool)
    (hg : genMetrics = true) :
    Event.write Artifact.metricsCsv ∉
      saveReport genReport genMetrics genExplanations genModelParams genPickle
        testDataPresent none testMetricsDf globalExpl localExpl errorsNonempty ∧
    Event.warnTrainMetrics ∈
      saveReport genReport genMetrics genExplanations genModelParams genPickle
        testDataPresent none testMetricsDf globalExpl localExpl errorsNonempty ∧
    Event.write Artifact.forecastCsv ∈
      saveReport genReport genMetrics genExplanations genModelParams genPickle
        testDataPresent none testMetricsDf globalExpl localExpl errorsNonempty := by
  subst hg
  refine ⟨?_, by simp [saveReport, mem_bool_ite_nil], by simp [saveReport]⟩
  intro hx
  cases testMetricsDf <;> cases globalExpl <;> cases localExpl <;>
    simp [saveReport, mem_bool_ite_nil] at hx

/-- Witness for C6 with only metrics generation requested and no training
metrics table: the warning is logged, no metrics CSV and still a forecast
CSV. -/
theorem saveReport_absent_metrics_warns_and_writes_forecast_witness :
    Event.write Artifact.metricsCsv ∉
      saveReport false true false false false false none none none none false ∧
    Event.warnTrainMetrics ∈
      saveReport false true false false false false none none none none false ∧
    Event.write Artifact.forecastCsv ∈
      saveReport false true false false false false none none none none false :=
  saveReport_absent_metrics_warns_and_writes_forecast
    false true false false false false none none none false rfl

/-- C6 counterexample: with metrics generation requested and an
empty-but-present training metrics table, `_save_report` writes the metrics
CSV (the guard is only `is not None`) and logs no warning — the
empty table is not treated as missing. -/
theorem saveReport_writes_empty_metrics_table :
    Event.write Artifact.metricsCsv ∈
      saveReport false true false false false false (some []) none none none false ∧
    Event.warnTrainMetrics ∉
      saveReport false true false false false false (some []) none none none false := by
  constructor <;> simp [saveReport]

lemma assocKeys_append {α β : Type} (l1 l2 : List (α × β)) :
    assocKeys (l1 ++ l2) = assocKeys l1 ++ assocKeys l2 := by
  simp [assocKeys]

lemma assocKeys_singleton_subset {α β : Type} (a : α) (b : β) :
    assocKeys [(a, b)] ⊆ [a] := by
  intro x hx
  simpa [assocKeys] using hx

lemma assocKeys_nil_subset {α β : Type} (l : List α) :
    assocKeys ([] : List (α × β)) ⊆ l := by
  intro x hx
  simp [assocKeys] at hx

lemma explainStep_not_mem {models : List SeriesId} {cols : SeriesId → List String}
    {shapG shapL : SeriesId → Except Unit (List (List ℚ))} {st : ExplainState}
    {s : SeriesId} (hm : s ∉ models) :
    explainStep models cols shapG shapL st s = Except.ok st := by
  unfold explainStep
  rw [if_neg hm]

lemma explainStep_error {models : List SeriesId} {cols : SeriesId → List String}
    {shapG shapL : SeriesId → Except Unit (List (List ℚ))} {st : ExplainState}
    {s : SeriesId} (hm : s ∈ models) (hG : shapG s = Except.error ()) :
    explainStep models cols shapG shapL st s = Except.error () := by
  unfold explainStep
  rw [if_pos hm, hG]

lemma explainStep_empty_shap {models : List SeriesId} {cols : SeriesId → List String}
    {shapG shapL : SeriesId → Except Unit (List (List ℚ))} {st st1 : ExplainState}
    {s : SeriesId} (hm : s ∈ models) (hG : shapG s = Except.ok [])
    (h : explainStep models cols shapG shapL st s = Except.ok st1) :
    st1.globalExpl = st.globalExpl ∧ s ∈ assocKeys st1.localExpl := by
  unfold explainStep at h
  rw [if_pos hm, hG] at h
  dsimp only at h
  cases hL : shapL s with
  | error e => rw [hL] at h; exact Except.noConfusion h
  | ok lvals =>
    rw [hL] at h
    dsimp only at h
    simp only [List.length_nil] at h
    rw [if_pos trivial] at h
    injection h with h1
    subst h1
    exact ⟨rfl, by simp [assocKeys]⟩

lemma explainStep_shape {models : List SeriesId} {cols : SeriesId → List String}
    {shapG shapL : SeriesId → Except Unit (List (List ℚ))} {st st1 : ExplainState}
    {a : SeriesId} (h : explainStep models cols shapG shapL st a = Except.ok st1) :
    ∃ gadd ladd, st1.globalExpl = st.globalExpl ++ gadd ∧
      st1.localExpl = st.localExpl ++ ladd ∧
      assocKeys gadd ⊆ [a] ∧ assocKeys ladd ⊆ [a] := by
  unfold explainStep at h
  by_cases hm : a ∈ models
  · rw [if_pos hm] at h
    cases hG : shapG a with
    | error e => rw [hG] at h; exact Except.noConfusion h
    | ok vals =>
      rw [hG] at h
      dsimp only at h
      cases hL : shapL a with
      | error e => rw [hL] at h; exact Except.noConfusion h
      | ok lvals =>
        rw [hL] at h
        dsimp only at h
        by_cases hv : vals.length = 0
        · rw [if_pos hv] at h
          injection h with h1
          subst h1
          exact ⟨[], [(a, lvals)], (List.append_nil _).symm, rfl,
            assocKeys_nil_subset _, assocKeys_singleton_subset _ _⟩
        · rw [if_neg hv] at h
          injection h with h1
          subst h1
          exact ⟨[(a, globalEntry (cols a) vals)], [(a, lvals)],
            rfl, rfl, assocKeys_singleton_subset _ _, assocKeys_singleton_subset _ _⟩
  · rw [if_neg hm] at h
    injection h with h1
    subst h1
    exact ⟨[], [], (List.append_nil _).symm, (List.append_nil _).symm,
      assocKeys_nil_subset _, assocKeys_nil_subset _⟩

lemma exceptFoldl_local_monotone {models : List SeriesId}
    {cols : SeriesId → List String}
    {shapG shapL : SeriesId → Except Unit (List (List ℚ))} :
    ∀ (series : List SeriesId) (st0 st : ExplainState),
      exceptFoldl (explainStep models cols shapG shapL) st0 series = Except.ok st →
      ∀ s, s ∈ assocKeys st0.localExpl → s ∈ assocKeys st.localExpl := by
  intro series
  induction series with
  | nil =>
    intro st0 st h s hs
    injection h with h1
    subst h1
    exact hs
  | cons a l ih =>
    intro st0 st h s hs
    simp only [exceptFoldl] at h
    cases hstep : explainStep models cols shapG shapL st0 a with
    | error e => rw [hstep] at h; exact Except.noConfusion h
    | ok st1 =>
      rw [hstep] at h
      obtain ⟨gadd, ladd, _, hl, _, _⟩ := explainStep_shape hstep
      exact ih st1 st h s (by rw [hl, assocKeys_append]; exact List.mem_append_left _ hs)

lemma exceptFoldl_global_not_added {models : List SeriesId}
    {cols : SeriesId → List String}
    {shapG shapL : SeriesId → Except Unit (List (List ℚ))} (s : SeriesId)
    (hcond : s ∉ models ∨ shapG s = Except.ok []) :
    ∀ (series : List SeriesId) (st0 st : ExplainState),
      exceptFoldl (explainStep models cols shapG shapL) st0 series = Except.ok st →
      s ∉ assocKeys st0.globalExpl → s ∉ assocKeys st.globalExpl := by
  intro series
  induction series with
  | nil =>
    intro st0 st h hs
    injection h with h1
    subst h1
    exact hs
  | cons a l ih =>
    intro st0 st h hs
    simp only [exceptFoldl] at h
    cases hstep : explainStep models cols shapG shapL st0 a with
    | error e => rw [hstep] at h; exact Except.noConfusion h
    | ok st1 =>
      rw [hstep] at h
      refine ih st1 st h ?_
      by_cases has : a = s
      · subst has
        rcases hcond with hnm | hG
        · rw [explainStep_not_mem hnm] at hstep
          injection hstep with h1
          rw [← h1]
          exact hs
        · by_cases hm : a ∈ models
          · exact (explainStep_empty_shap hm hG hstep).1 ▸ hs
          · rw [explainStep_not_mem hm] at hstep
            injection hstep with h1
            rw [← h1]
            exact hs
      · obtain ⟨gadd, ladd, hg, _, hsub, _⟩ := explainStep_shape hstep
        rw [hg, assocKeys_append]
        intro hmem
        rcases List.mem_append.mp hmem with hmem | hmem
        · exact hs hmem
        · exact has (List.mem_singleton.mp (hsub hmem)).symm

lemma exceptFoldl_local_not_added {models : List SeriesId}
    {cols : SeriesId → List String}
    {shapG shapL : SeriesId → Except Unit (List (List ℚ))} (s : SeriesId)
    (hnm : s ∉ models) :
    ∀ (series : List SeriesId) (st0 st : ExplainState),
      exceptFoldl (explainStep models cols shapG shapL) st0 series = Except.ok st →
      s ∉ assocKeys st0.localExpl → s ∉ assocKeys st.localExpl := by
  intro series
  induction series with
  | nil =>
    intro st0 st h hs
    injection h with h1
    subst h1
    exact hs
  | cons a l ih =>
    intro st0 st h hs
    simp only [exceptFoldl] at h
    cases hstep : explainStep models cols shapG shapL st0 a with
    | error e => rw [hstep] at h; exact Except.noConfusion h
    | ok st1 =>
      rw [hstep] at h
      refine ih st1 st h ?_
      by_cases has : a = s
      · subst has
        rw [explainStep_not_mem hnm] at hstep
        injection hstep with h1
        rw [← h1]
        exact hs
      · obtain ⟨gadd, ladd, _, hl, _, hsub⟩ := explainStep_shape hstep
        rw [hl, assocKeys_append]
        intro hmem
        rcases List.mem_append.mp hmem with hmem | hmem
        · exact hs hmem
        · exact has (List.mem_singleton.mp (hsub hmem)).symm

lemma exceptFoldl_error_of_failing_mem {models : List SeriesId}
    {cols : SeriesId → List String}
    {shapG shapL : SeriesId → Except Unit (List (List ℚ))} (s : SeriesId)
    (hm : s ∈ models) (hG : shapG s = Except.error ()) :
    ∀ (series : List SeriesId) (st0 : ExplainState), s ∈ series →
      exceptFoldl (explainStep models cols shapG shapL) st0 series =
        Except.error () := by
  intro series
  induction series with
  | nil => intro st0 hs; exact absurd hs (List.not_mem_nil s)
  | cons a l ih =>
    intro st0 hs
    simp only [exceptFoldl]
    rcases List.mem_cons.mp hs with rfl | hs
    · rw [explainStep_error hm hG]
    · cases hstep : explainStep models cols shapG shapL st0 a with
      | error e => cases e; rfl
      | ok st1 => exact ih st1 hs

lemma exceptFoldl_local_added {models : List SeriesId}
    {cols : SeriesId → List String}
    {shapG shapL : SeriesId → Except Unit (List (List ℚ))} (s : SeriesId)
    (hm : s ∈ models) (hG : shapG s = Except.ok []) :
    ∀ (series : List SeriesId) (st0 st : ExplainState),
      exceptFoldl (explainStep models cols shapG shapL) st0 series = Except.ok st →
      s ∈ series → s ∈ assocKeys st.localExpl := by
  intro series
  induction series with
  | nil => intro st0 st _ hs; exact absurd hs (List.not_mem_nil s)
  | cons a l ih =>
    intro st0 st h hs
    simp only [exceptFoldl] at h
    cases hstep : explainStep models cols shapG shapL st0 a with
    | error e => rw [hstep] at h; exact Except.noConfusion h
    | ok st1 =>
      rw [hstep] at h
      rcases List.mem_cons.mp hs with rfl | hs
      · exact exceptFoldl_local_monotone l st1 st h s
          (explainStep_empty_shap hm hG hstep).2
      · exact ih st1 st h hs

/-- C3 (amended): in `explain_model`, a series without a fitted model is
skipped with a warning and appears in neither GlobalExplanation nor
LocalExplanation; but the per-series body runs without any try/except, so a
failure while computing one series' attributions propagates and aborts the
whole loop — subsequent series receive no explanations. -/
theorem explainModel_skips_unmodeled_but_aborts_on_failure
    (series models : List SeriesId) (cols : SeriesId → List String)
    (shapG shapL : SeriesId → Except Unit (List (List ℚ))) (s : SeriesId) :
    (∀ st, explainModel series models cols shapG shapL = Except.ok st →
       s ∉ models → s ∉ assocKeys st.globalExpl ∧ s ∉ assocKeys st.localExpl) ∧
    (s ∈ series → s ∈ models → shapG s = Except.error () →
       explainModel series models cols shapG shapL = Except.error ()) := by
  constructor
  · intro st hok hnm
    unfold explainModel at hok
    exact ⟨exceptFoldl_global_not_added s (Or.inl hnm) series ⟨[], []⟩ st hok
        (by simp [assocKeys]),
      exceptFoldl_local_not_added s hnm series ⟨[], []⟩ st hok
        (by simp [assocKeys])⟩
  · intro hs hm hG
    unfold explainModel
    exact exceptFoldl_error_of_failing_mem s hm hG series ⟨[], []⟩ hs

/-- Witness for C3: a one-series run whose SHAP computation fails aborts
with the propagated exception. -/
theorem explainModel_skips_unmodeled_but_aborts_on_failure_witness :
    explainModel ["A"] ["A"] exCols exShapFailA exShapOk = Except.error () :=
  (explainModel_skips_unmodeled_but_aborts_on_failure
    ["A"] ["A"] exCols exShapFailA exShapOk "A").2
    (by decide) (by decide) (by rfl)

/-- C3 counterexample: with two modelled series A and B where A's SHAP
computation raises, `explain_model` aborts before reaching B: the loop
returns the exception and B gets no explanation, contradicting the claim
that a failure for one series does not prevent explanations for
subsequent series. -/
theorem explainModel_failure_aborts_subsequent_series :
    explainModel ["A", "B"] ["A", "B"] exCols exShapFailA exShapOk =
      Except.error () := by
  rfl

/-- C10: for a modelled series whose global attribution result set is empty,
`explain_model` still stores the LocalExplanation entry (written by
`local_explainer` before the emptiness check) while the series stays absent
from GlobalExplanation. -/
theorem explainModel_empty_attributions_keep_local_entry
    (series models : List SeriesId) (cols : SeriesId → List String)
    (shapG shapL : SeriesId → Except Unit (List (List ℚ)))
    (st : ExplainState) (s : SeriesId)
    (hok : explainModel series models cols shapG shapL = Except.ok st)
    (hs : s ∈ series) (hm : s ∈ models) (hG : shapG s = Except.ok []) :
    s ∈ assocKeys st.localExpl ∧ s ∉ assocKeys st.globalExpl := by
  unfold explainModel at hok
  exact ⟨exceptFoldl_local_added s hm hG series ⟨[], []⟩ st hok hs,
    exceptFoldl_global_not_added s (Or.inr hG) series ⟨[], []⟩ st hok
      (by simp [assocKeys])⟩

/-- Witness for C10: one modelled series with an empty attribution result
set ends with a local entry and no global entry. -/
theorem explainModel_empty_attributions_keep_local_entry_witness :
    ("A" : String) ∈ assocKeys [(("A" : String), [[(1 : ℚ), 2, 3]])] ∧
    ("A" : String) ∉ assocKeys ([] : List (SeriesId × List (String × ℚ))) :=
  explainModel_empty_attributions_keep_local_entry
    ["A"] ["A"] exCols exShapEmpty exShapOk
    ⟨[], [("A", [[1, 2, 3]])]⟩ "A" (by rfl) (by decide) (by decide) (by rfl)

end ForecastOp
